import Mathlib

/-!
Shallow embedding of the synthetic-telemetry generator of this repository
(`src/utils/scales.ts`, generator portion): the correlated metrics generator
(`MetricsGenerator.generateDataPoint`, `MetricsGenerator.generateHistoricalData`)
and the node-health population simulator (`generateNodeMetrics`,
`updateNodeMetrics`, `determineStatus`).

JavaScript numbers are modelled as rationals; `Math.random()` is modelled as an
explicit stream `r : ℕ → ℚ` of draws together with a cursor index that each
operation threads through in the exact evaluation order of the source
(short-circuit `&&` means some branches consume fewer draws).  `Math.round x`
is `⌊x + 1/2⌋`.  States are passed explicitly.
-/

/-- A stream of random draws is valid when every draw lies in `[0,1)`,
the range of `Math.random()`. -/
def ValidRand (r : ℕ → ℚ) : Prop := ∀ n, 0 ≤ r n ∧ r n < 1

/-- JavaScript `Math.round`: round half up. -/
def jsRound (x : ℚ) : ℤ := ⌊x + 1/2⌋

/-- `Math.round(x * 10) / 10` — round to one decimal place. -/
def round1 (x : ℚ) : ℚ := (jsRound (x * 10) : ℚ) / 10

/-- `Math.round(x * 100) / 100` — round to two decimal places. -/
def round2 (x : ℚ) : ℚ := (jsRound (x * 100) : ℚ) / 100

/-- `Math.max(lo, Math.min(hi, x))`, the clamping pattern used throughout. -/
def clampQ (lo hi x : ℚ) : ℚ := max lo (min hi x)

/-- `MetricDataPoint` from `src/types/metrics.ts`. -/
structure MetricDataPoint where
  timestamp : ℚ
  cpu : ℚ
  memory : ℚ
  rps : ℤ
  p50 : ℚ
  p95 : ℚ
  p99 : ℚ
  errorRate : ℚ
deriving DecidableEq, Repr

/-- Private state of `MetricsGenerator` (the mutable instance fields). -/
structure GenState where
  cpuTrend : ℚ
  memoryTrend : ℚ
  errorSpikeCooldown : ℤ
deriving DecidableEq, Repr

/-- Initial generator state: all fields start at zero. -/
def initGenState : GenState := ⟨0, 0, 0⟩

/-- `baselineCpu = 45`. -/
def baselineCpu : ℚ := 45

/-- `baselineMemory = 60`. -/
def baselineMemory : ℚ := 60

/-- `(Math.random() - 0.5) * 2`, the per-tick cpu-trend increment. -/
def cpuTrendIncrement (u : ℚ) : ℚ := (u - 1/2) * 2

/-- `(Math.random() - 0.5) * 1.5`, the per-tick memory-trend increment. -/
def memoryTrendIncrement (u : ℚ) : ℚ := (u - 1/2) * (3/2)

/-- `this.cpuTrend` after the increment and the clamp to `[-15, 15]`. -/
def cpuTrendOf (s : GenState) (r : ℕ → ℚ) (k : ℕ) : ℚ :=
  clampQ (-15) 15 (s.cpuTrend + cpuTrendIncrement (r k))

/-- `this.memoryTrend` after the increment and the clamp to `[-10, 10]`. -/
def memoryTrendOf (s : GenState) (r : ℕ → ℚ) (k : ℕ) : ℚ :=
  clampQ (-10) 10 (s.memoryTrend + memoryTrendIncrement (r (k+1)))

/-- The `cpu` local of `generateDataPoint`. -/
def cpuOf (s : GenState) (r : ℕ → ℚ) (k : ℕ) : ℚ :=
  clampQ 0 100 (baselineCpu + cpuTrendOf s r k + (r (k+2) - 1/2) * 8)

/-- The `memory` local of `generateDataPoint`. -/
def memoryOf (s : GenState) (r : ℕ → ℚ) (k : ℕ) : ℚ :=
  clampQ 0 100 (baselineMemory + memoryTrendOf s r k + (r (k+3) - 1/2) * 6)

/-- `loadFactor = cpu / 100`. -/
def loadFactorOf (s : GenState) (r : ℕ → ℚ) (k : ℕ) : ℚ := cpuOf s r k / 100

/-- `baseRps * (0.5 + loadFactor * 0.8) + (Math.random() - 0.5) * 200`,
the throughput expression before the `max(0, ·)` guard. -/
def rpsRaw (loadFactor noise : ℚ) : ℚ :=
  1200 * (1/2 + loadFactor * (8/10)) + (noise - 1/2) * 200

/-- The `rps` local of `generateDataPoint` (before integer rounding). -/
def rpsOf (s : GenState) (r : ℕ → ℚ) (k : ℕ) : ℚ :=
  max 0 (rpsRaw (loadFactorOf s r k) (r (k+4)))

/-- The `p50` local: `max(5, baseLatency + loadPenalty + noise)` with
`baseLatency = 45`, `loadPenalty = loadFactor * 80`. -/
def p50Of (s : GenState) (r : ℕ → ℚ) (k : ℕ) : ℚ :=
  max 5 (45 + loadFactorOf s r k * 80 + (r (k+5) - 1/2) * 15)

/-- The `p95` local: `p50 * (2.2 + Math.random() * 0.4)`. -/
def p95Of (s : GenState) (r : ℕ → ℚ) (k : ℕ) : ℚ :=
  p50Of s r k * (22/10 + r (k+6) * (4/10))

/-- The `p99` local: `p95 * (1.8 + Math.random() * 0.3)`. -/
def p99Of (s : GenState) (r : ℕ → ℚ) (k : ℕ) : ℚ :=
  p95Of s r k * (18/10 + r (k+7) * (3/10))

/-- The initial `errorRate` local: `0.05 + loadFactor * 0.15 + Math.random() * 0.1`. -/
def baseErrorRateOf (s : GenState) (r : ℕ → ℚ) (k : ℕ) : ℚ :=
  5/100 + loadFactorOf s r k * (15/100) + r (k+8) * (1/10)

/-- The error-spike/cooldown block of `generateDataPoint` (source lines 103-112):
decrement the cooldown when positive, then either trigger a spike (idle roll),
keep the base rate, or apply the recovery plateau.  Returns the resulting
`errorRate`, the resulting cooldown, and the next draw index (the idle roll
consumes a draw only when the decremented cooldown is zero, because `&&`
short-circuits). -/
def spikeStep (r : ℕ → ℚ) (k : ℕ) (cd : ℤ) (baseErr : ℚ) : ℚ × ℤ × ℕ :=
  let cd1 := if 0 < cd then cd - 1 else cd
  if cd1 = 0 then
    if r k < 2/100 then (2 + r (k+1) * 3, 15, k + 2)
    else (baseErr, cd1, k + 1)
  else
    if 0 < cd1 ∧ cd1 < 5 then (1/2 + r k * 1, cd1, k + 1)
    else (baseErr, cd1, k)

/-- `MetricsGenerator.generateDataPoint`: produces one sample, the new
generator state, and the next draw index. -/
def generateDataPoint (s : GenState) (r : ℕ → ℚ) (k : ℕ) (timestamp : ℚ) :
    MetricDataPoint × GenState × ℕ :=
  let es := spikeStep r (k+9) s.errorSpikeCooldown (baseErrorRateOf s r k)
  ({ timestamp := timestamp
     cpu := cpuOf s r k
     memory := memoryOf s r k
     rps := jsRound (rpsOf s r k)
     p50 := round1 (p50Of s r k)
     p95 := round1 (p95Of s r k)
     p99 := round1 (p99Of s r k)
     errorRate := round2 es.1 },
   ⟨cpuTrendOf s r k, memoryTrendOf s r k, es.2.1⟩,
   es.2.2)

/-- The loop body of `generateHistoricalData`: generate `fuel` points with loop
counter starting at `i`, timestamps `now - (points - i) * intervalMs`. -/
def genHistLoop (r : ℕ → ℚ) (now intervalMs : ℚ) (points : ℤ) :
    ℕ → ℕ → GenState → ℕ → List MetricDataPoint × GenState × ℕ
  | 0, _, s, k => ([], s, k)
  | fuel+1, i, s, k =>
    let one := generateDataPoint s r k (now - ((points : ℚ) - (i : ℚ)) * intervalMs)
    let rest := genHistLoop r now intervalMs points fuel (i+1) one.2.1 one.2.2
    (one.1 :: rest.1, rest.2.1, rest.2.2)

/-- `MetricsGenerator.generateHistoricalData`: `points = floor(minutes*60*1000 /
intervalMs)` samples produced by sequential `generateDataPoint` calls
(a non-positive `points` runs the loop zero times). -/
def generateHistoricalData (s : GenState) (r : ℕ → ℚ) (k : ℕ)
    (now minutes intervalMs : ℚ) : List MetricDataPoint × GenState × ℕ :=
  let points : ℤ := ⌊minutes * 60 * 1000 / intervalMs⌋
  genHistLoop r now intervalMs points points.toNat 0 s k

/-- One tick of the whole generator run started from the initial state
(timestamps are irrelevant to the state evolution and fed as 0). -/
def runGen (r : ℕ → ℚ) : ℕ → GenState × ℕ
  | 0 => (initGenState, 0)
  | n+1 =>
    let p := runGen r n
    let res := generateDataPoint p.1 r p.2 0
    (res.2.1, res.2.2)

/-- `NodeHealthStatus` from `src/types/metrics.ts`. -/
inductive NodeHealthStatus where
  | healthy
  | degraded
  | down
deriving DecidableEq, Repr

/-- `NodeMetric` from `src/types/metrics.ts`. -/
structure NodeMetric where
  nodeId : String
  load : ℚ
  health : ℚ
  status : NodeHealthStatus
  region : String
deriving DecidableEq, Repr

/-- `determineStatus`: thresholds 80 and 40. -/
def determineStatus (health : ℚ) : NodeHealthStatus :=
  if 80 ≤ health then .healthy
  else if 40 ≤ health then .degraded
  else .down

/-- The `REGIONS` constant. -/
def REGIONS : List String := ["us-east", "us-west", "eu-central", "ap-south"]

/-- The `NODE_COUNT` constant. -/
def NODE_COUNT : ℕ := 24

/-- `String(n).padStart(2, "0")`. -/
def jsPadStart2 (s : String) : String :=
  if s.length < 2 then String.mk (List.replicate (2 - s.length) '0') ++ s else s

/-- One element of the `Array.from` callback in `generateNodeMetrics`:
base load draw, three-tier health mixture (draw count depends on the tier
selectors, mirroring the nested conditional expressions), id, region. -/
def makeNode (i : ℕ) (r : ℕ → ℚ) (k : ℕ) : NodeMetric × ℕ :=
  let baseLoad := 30 + r k * 40
  let hv : ℚ × ℕ :=
    if r (k+1) > 15/100 then (85 + r (k+2) * 15, k+3)
    else if r (k+2) > 1/2 then (50 + r (k+3) * 25, k+4)
    else (15 + r (k+3) * 20, k+4)
  ({ nodeId := "node-" ++ jsPadStart2 (toString (i+1))
     load := (jsRound baseLoad : ℚ)
     health := (jsRound hv.1 : ℚ)
     status := determineStatus hv.1
     region := REGIONS.getD (i % REGIONS.length) "" },
   hv.2)

/-- Builds `n` nodes starting at index `i`, threading the draw cursor. -/
def generateNodeMetricsAux (r : ℕ → ℚ) : ℕ → ℕ → ℕ → List NodeMetric × ℕ
  | 0, _, k => ([], k)
  | n+1, i, k =>
    let m := makeNode i r k
    let rest := generateNodeMetricsAux r n (i+1) m.2
    (m.1 :: rest.1, rest.2)

/-- `generateNodeMetrics`: the initial population of `NODE_COUNT` nodes. -/
def generateNodeMetrics (r : ℕ → ℚ) (k : ℕ) : List NodeMetric × ℕ :=
  generateNodeMetricsAux r NODE_COUNT 0 k

/-- The `healthDelta` local of the `updateNodeMetrics` callback after the
state-dependent bias branches, together with the next draw index (the bias
coin is drawn only for `down`/`degraded` nodes, because `&&` short-circuits). -/
def healthDeltaStep (node : NodeMetric) (r : ℕ → ℚ) (k : ℕ) : ℚ × ℕ :=
  let d0 := (r k - 1/2) * 3
  if node.status = .down then
    (if r (k+1) < 3/10 then |d0| * 2 else d0, k+2)
  else if node.status = .degraded then
    (if r (k+1) < 1/10 then -|d0| * (3/2) else d0, k+2)
  else (d0, k+1)

/-- The `newHealth` local: `Math.max(0, Math.min(100, node.health + healthDelta))`. -/
def rawNewHealth (node : NodeMetric) (r : ℕ → ℚ) (k : ℕ) : ℚ :=
  clampQ 0 100 (node.health + (healthDeltaStep node r k).1)

/-- The `updateNodeMetrics` callback for one node: new load (one draw, taken
after the delta and coin draws), rounded new health, status recomputed from the
unrounded `newHealth`; `nodeId` and `region` carried over by the spread. -/
def updateNode (node : NodeMetric) (r : ℕ → ℚ) (k : ℕ) : NodeMetric × ℕ :=
  ({ node with
      load := clampQ 0 100 (node.load + (r (healthDeltaStep node r k).2 - 1/2) * 8)
      health := (jsRound (rawNewHealth node r k) : ℚ)
      status := determineStatus (rawNewHealth node r k) },
   (healthDeltaStep node r k).2 + 1)

/-- `updateNodeMetrics`: `current.map(...)` with the draw cursor threaded in
element order. -/
def updateNodeMetrics (r : ℕ → ℚ) : ℕ → List NodeMetric → List NodeMetric × ℕ
  | k, [] => ([], k)
  | k, node :: rest =>
    let u := updateNode node r k
    let res := updateNodeMetrics r u.2 rest
    (u.1 :: res.1, res.2)

/-- The constant stream of draws `1/2`, used to instantiate universally
quantified theorems at a concrete valid input. -/
def halfStream : ℕ → ℚ := fun _ => 1/2

/-- The invariant bundle claimed for every generated sample. -/
def SampleInvariant (pt : MetricDataPoint) : Prop :=
  0 ≤ pt.cpu ∧ pt.cpu ≤ 100 ∧
  0 ≤ pt.memory ∧ pt.memory ≤ 100 ∧
  0 ≤ pt.rps ∧
  0 < pt.p50 ∧ pt.p50 ≤ pt.p95 ∧ pt.p95 ≤ pt.p99 ∧
  0 ≤ pt.errorRate ∧
  ∃ a b c : ℚ, pt.p50 = round1 a ∧ pt.p95 = round1 b ∧ pt.p99 = round1 c ∧
    0 < a ∧ a < b ∧ b < c

/-! ## Basic lemmas about the JavaScript arithmetic helpers -/

lemma le_clampQ (lo hi x : ℚ) : lo ≤ clampQ lo hi x := le_max_left _ _

lemma clampQ_le (lo hi x : ℚ) (h : lo ≤ hi) : clampQ lo hi x ≤ hi :=
  max_le h (min_le_left _ _)

lemma jsRound_mono {x y : ℚ} (h : x ≤ y) : jsRound x ≤ jsRound y :=
  Int.floor_mono (by linarith)

lemma le_jsRound (m : ℤ) (x : ℚ) (h : (m : ℚ) ≤ x) : m ≤ jsRound x :=
  Int.le_floor.mpr (by linarith)

lemma jsRound_le (m : ℤ) (x : ℚ) (h : x < (m : ℚ)) : jsRound x ≤ m := by
  have hlt : jsRound x < m + 1 := Int.floor_lt.mpr (by push_cast; linarith)
  omega

lemma jsRound_intCast (m : ℤ) : jsRound (m : ℚ) = m := by
  have h1 : m ≤ jsRound (m : ℚ) := le_jsRound m _ le_rfl
  have h2 : jsRound (m : ℚ) < m + 1 := Int.floor_lt.mpr (by push_cast; linarith)
  omega

lemma jsRound_nonneg {x : ℚ} (h : 0 ≤ x) : 0 ≤ jsRound x :=
  le_jsRound 0 x (by exact_mod_cast h)

lemma round1_mono {x y : ℚ} (h : x ≤ y) : round1 x ≤ round1 y := by
  unfold round1
  have h10 : x * 10 ≤ y * 10 := by linarith
  have hc : ((jsRound (x * 10) : ℤ) : ℚ) ≤ ((jsRound (y * 10) : ℤ) : ℚ) := by
    exact_mod_cast jsRound_mono h10
  linarith

lemma five_le_round1 {x : ℚ} (h : 5 ≤ x) : 5 ≤ round1 x := by
  unfold round1
  have hz : (50 : ℤ) ≤ jsRound (x * 10) := le_jsRound 50 _ (by push_cast; linarith)
  have hc : (50 : ℚ) ≤ (jsRound (x * 10) : ℚ) := by exact_mod_cast hz
  linarith

lemma round2_nonneg {x : ℚ} (h : 0 ≤ x) : 0 ≤ round2 x := by
  unfold round2
  have hz : (0 : ℤ) ≤ jsRound (x * 100) := jsRound_nonneg (by linarith)
  have hc : (0 : ℚ) ≤ (jsRound (x * 100) : ℚ) := by exact_mod_cast hz
  linarith

lemma two_le_round2 {x : ℚ} (h : 2 ≤ x) : 2 ≤ round2 x := by
  unfold round2
  have hz : (200 : ℤ) ≤ jsRound (x * 100) := le_jsRound 200 _ (by push_cast; linarith)
  have hc : (200 : ℚ) ≤ (jsRound (x * 100) : ℚ) := by exact_mod_cast hz
  linarith

lemma round2_le_five {x : ℚ} (h : x < 5) : round2 x ≤ 5 := by
  unfold round2
  have hz : jsRound (x * 100) ≤ (500 : ℤ) := jsRound_le 500 _ (by push_cast; linarith)
  have hc : (jsRound (x * 100) : ℚ) ≤ (500 : ℚ) := by exact_mod_cast hz
  linarith

lemma half_le_round2 {x : ℚ} (h : 1/2 ≤ x) : 1/2 ≤ round2 x := by
  unfold round2
  have hz : (50 : ℤ) ≤ jsRound (x * 100) := le_jsRound 50 _ (by push_cast; linarith)
  have hc : (50 : ℚ) ≤ (jsRound (x * 100) : ℚ) := by exact_mod_cast hz
  linarith

lemma round2_le_three_halves {x : ℚ} (h : x < 3/2) : round2 x ≤ 3/2 := by
  unfold round2
  have hz : jsRound (x * 100) ≤ (150 : ℤ) := jsRound_le 150 _ (by push_cast; linarith)
  have hc : (jsRound (x * 100) : ℚ) ≤ (150 : ℚ) := by exact_mod_cast hz
  linarith

/-! ## Projection lemmas for `generateDataPoint` -/

lemma gdp_timestamp (s : GenState) (r : ℕ → ℚ) (k : ℕ) (ts : ℚ) :
    (generateDataPoint s r k ts).1.timestamp = ts := rfl

lemma gdp_cpu (s : GenState) (r : ℕ → ℚ) (k : ℕ) (ts : ℚ) :
    (generateDataPoint s r k ts).1.cpu = cpuOf s r k := rfl

lemma gdp_memory (s : GenState) (r : ℕ → ℚ) (k : ℕ) (ts : ℚ) :
    (generateDataPoint s r k ts).1.memory = memoryOf s r k := rfl

lemma gdp_rps (s : GenState) (r : ℕ → ℚ) (k : ℕ) (ts : ℚ) :
    (generateDataPoint s r k ts).1.rps = jsRound (rpsOf s r k) := rfl

lemma gdp_p50 (s : GenState) (r : ℕ → ℚ) (k : ℕ) (ts : ℚ) :
    (generateDataPoint s r k ts).1.p50 = round1 (p50Of s r k) := rfl

lemma gdp_p95 (s : GenState) (r : ℕ → ℚ) (k : ℕ) (ts : ℚ) :
    (generateDataPoint s r k ts).1.p95 = round1 (p95Of s r k) := rfl

lemma gdp_p99 (s : GenState) (r : ℕ → ℚ) (k : ℕ) (ts : ℚ) :
    (generateDataPoint s r k ts).1.p99 = round1 (p99Of s r k) := rfl

lemma gdp_errorRate (s : GenState) (r : ℕ → ℚ) (k : ℕ) (ts : ℚ) :
    (generateDataPoint s r k ts).1.errorRate =
      round2 (spikeStep r (k+9) s.errorSpikeCooldown (baseErrorRateOf s r k)).1 := rfl

lemma gdp_state_cpuTrend (s : GenState) (r : ℕ → ℚ) (k : ℕ) (ts : ℚ) :
    (generateDataPoint s r k ts).2.1.cpuTrend = cpuTrendOf s r k := rfl

lemma gdp_state_memoryTrend (s : GenState) (r : ℕ → ℚ) (k : ℕ) (ts : ℚ) :
    (generateDataPoint s r k ts).2.1.memoryTrend = memoryTrendOf s r k := rfl

lemma gdp_state_cooldown (s : GenState) (r : ℕ → ℚ) (k : ℕ) (ts : ℚ) :
    (generateDataPoint s r k ts).2.1.errorSpikeCooldown =
      (spikeStep r (k+9) s.errorSpikeCooldown (baseErrorRateOf s r k)).2.1 := rfl

/-! ## Range lemmas for the generator internals -/

lemma loadFactorOf_nonneg (s : GenState) (r : ℕ → ℚ) (k : ℕ) :
    0 ≤ loadFactorOf s r k :=
  div_nonneg (le_clampQ _ _ _) (by norm_num)

lemma five_le_p50Of (s : GenState) (r : ℕ → ℚ) (k : ℕ) : 5 ≤ p50Of s r k :=
  le_max_left _ _

lemma p50Of_lt_p95Of (s : GenState) (r : ℕ → ℚ) (k : ℕ) (hr : ValidRand r) :
    p50Of s r k < p95Of s r k := by
  have h5 : (5 : ℚ) ≤ p50Of s r k := five_le_p50Of s r k
  have hpos : 0 < p50Of s r k := by linarith
  have hx : 0 ≤ r (k+6) := (hr (k+6)).1
  have hf : (1 : ℚ) < 22/10 + r (k+6) * (4/10) := by nlinarith
  have := (lt_mul_iff_one_lt_right hpos).mpr hf
  simpa [p95Of] using this

lemma p95Of_lt_p99Of (s : GenState) (r : ℕ → ℚ) (k : ℕ) (hr : ValidRand r) :
    p95Of s r k < p99Of s r k := by
  have h5 : (5 : ℚ) ≤ p50Of s r k := five_le_p50Of s r k
  have hpos : 0 < p95Of s r k := by
    have := p50Of_lt_p95Of s r k hr
    linarith
  have hx : 0 ≤ r (k+7) := (hr (k+7)).1
  have hf : (1 : ℚ) < 18/10 + r (k+7) * (3/10) := by nlinarith
  have := (lt_mul_iff_one_lt_right hpos).mpr hf
  simpa [p99Of] using this

lemma baseErrorRateOf_nonneg (s : GenState) (r : ℕ → ℚ) (k : ℕ) (hr : ValidRand r) :
    0 ≤ baseErrorRateOf s r k := by
  have hlf := loadFactorOf_nonneg s r k
  have hx : 0 ≤ r (k+8) := (hr (k+8)).1
  unfold baseErrorRateOf
  nlinarith

lemma spikeStep_fst_nonneg (r : ℕ → ℚ) (k : ℕ) (cd : ℤ) (b : ℚ)
    (hr : ValidRand r) (hb : 0 ≤ b) : 0 ≤ (spikeStep r k cd b).1 := by
  have h1 := (hr (k+1)).1
  have h0 := (hr k).1
  simp only [spikeStep]
  split_ifs <;> dsimp only <;> linarith

/-! ## Branch characterizations of `spikeStep` -/

lemma spikeStep_eq_spike (r : ℕ → ℚ) (k : ℕ) (cd : ℤ) (b : ℚ)
    (h1 : (if 0 < cd then cd - 1 else cd) = 0) (h2 : r k < 2/100) :
    spikeStep r k cd b = (2 + r (k+1) * 3, 15, k + 2) := by
  simp only [spikeStep]
  rw [if_pos h1, if_pos h2]

lemma spikeStep_eq_noroll (r : ℕ → ℚ) (k : ℕ) (cd : ℤ) (b : ℚ)
    (h1 : (if 0 < cd then cd - 1 else cd) = 0) (h2 : ¬ r k < 2/100) :
    spikeStep r k cd b = (b, 0, k + 1) := by
  simp only [spikeStep]
  rw [if_pos h1, if_neg h2, h1]

lemma spikeStep_eq_plateau (r : ℕ → ℚ) (k : ℕ) (cd : ℤ) (b : ℚ) (cd1 : ℤ)
    (hcd1 : cd1 = if 0 < cd then cd - 1 else cd)
    (h1 : cd1 ≠ 0) (h2 : 0 < cd1 ∧ cd1 < 5) :
    spikeStep r k cd b = (1/2 + r k * 1, cd1, k + 1) := by
  simp only [spikeStep]
  rw [← hcd1, if_neg h1, if_pos h2]

lemma spikeStep_eq_base (r : ℕ → ℚ) (k : ℕ) (cd : ℤ) (b : ℚ) (cd1 : ℤ)
    (hcd1 : cd1 = if 0 < cd then cd - 1 else cd)
    (h1 : cd1 ≠ 0) (h2 : ¬ (0 < cd1 ∧ cd1 < 5)) :
    spikeStep r k cd b = (b, cd1, k) := by
  simp only [spikeStep]
  rw [← hcd1, if_neg h1, if_neg h2]

lemma spikeStep_cooldown_mem (r : ℕ → ℚ) (k : ℕ) (cd : ℤ) (b : ℚ)
    (h0 : 0 ≤ cd) (h15 : cd ≤ 15) :
    0 ≤ (spikeStep r k cd b).2.1 ∧ (spikeStep r k cd b).2.1 ≤ 15 := by
  simp only [spikeStep]
  split_ifs <;> dsimp only <;> omega

/-! ## C1: invariants of every generated sample -/

/-- C1: for every generator state (reachable or not) and every valid draw
stream, the sample returned by `generateDataPoint` satisfies
`0 ≤ cpu ≤ 100`, `0 ≤ memory ≤ 100`, `rps ≥ 0`, `0 < p50 ≤ p95 ≤ p99`
(strictly `p50 < p95 < p99` before the one-decimal rounding, and still
ordered after it), and `errorRate ≥ 0`. -/
theorem generateDataPoint_sample_invariant (s : GenState) (r : ℕ → ℚ) (k : ℕ)
    (ts : ℚ) (hr : ValidRand r) :
    SampleInvariant (generateDataPoint s r k ts).1 := by
  unfold SampleInvariant
  rw [gdp_cpu, gdp_memory, gdp_rps, gdp_p50, gdp_p95, gdp_p99, gdp_errorRate]
  have h50 := five_le_p50Of s r k
  have h5095 := p50Of_lt_p95Of s r k hr
  have h9599 := p95Of_lt_p99Of s r k hr
  refine ⟨le_clampQ _ _ _, clampQ_le _ _ _ (by norm_num),
    le_clampQ _ _ _, clampQ_le _ _ _ (by norm_num),
    jsRound_nonneg (le_max_left _ _), ?_, ?_, ?_, ?_, ?_⟩
  · have := five_le_round1 h50
    linarith
  · exact round1_mono h5095.le
  · exact round1_mono h9599.le
  · exact round2_nonneg (spikeStep_fst_nonneg _ _ _ _ hr
      (baseErrorRateOf_nonneg s r k hr))
  · exact ⟨p50Of s r k, p95Of s r k, p99Of s r k, rfl, rfl, rfl,
      by linarith, h5095, h9599⟩

/-- Witness for C1 at the concrete valid stream of constant draws `1/2`. -/
theorem generateDataPoint_sample_invariant_witness :
    ValidRand halfStream ∧ SampleInvariant (generateDataPoint initGenState halfStream 0 0).1 :=
  ⟨fun n => by constructor <;> norm_num [halfStream],
   generateDataPoint_sample_invariant initGenState halfStream 0 0
     (fun n => by constructor <;> norm_num [halfStream])⟩

/-! ## C10: the rps lower bound 500 -/

/-- C10: for every generator state and every valid draw stream, the raw
throughput expression `rpsRaw` is at least 500 — so the `max(0, ·)` guard
never binds (it returns its second argument), and the rounded `rps` of the
sample is at least 500. -/
theorem rps_lower_bound (s : GenState) (r : ℕ → ℚ) (k : ℕ) (ts : ℚ)
    (hr : ValidRand r) :
    500 ≤ (generateDataPoint s r k ts).1.rps ∧
    max 0 (rpsRaw (loadFactorOf s r k) (r (k+4))) = rpsRaw (loadFactorOf s r k) (r (k+4)) := by
  have hlf := loadFactorOf_nonneg s r k
  have hx : 0 ≤ r (k+4) := (hr (k+4)).1
  have hraw : (500 : ℚ) ≤ rpsRaw (loadFactorOf s r k) (r (k+4)) := by
    unfold rpsRaw
    nlinarith
  constructor
  · rw [gdp_rps]
    refine le_jsRound 500 _ ?_
    unfold rpsOf
    push_cast
    exact le_trans hraw (le_max_right _ _)
  · exact max_eq_right (by linarith)

/-- Witness for C10 at the concrete valid stream of constant draws `1/2`. -/
theorem rps_lower_bound_witness :
    ValidRand halfStream ∧
    (500 ≤ (generateDataPoint initGenState halfStream 0 0).1.rps ∧
     max 0 (rpsRaw (loadFactorOf initGenState halfStream 0) (halfStream 4)) =
       rpsRaw (loadFactorOf initGenState halfStream 0) (halfStream 4)) :=
  ⟨fun n => by constructor <;> norm_num [halfStream],
   rps_lower_bound initGenState halfStream 0 0
     (fun n => by constructor <;> norm_num [halfStream])⟩

/-! ## C5: the trend increments (corrected) -/

/-- C5 counterexample: the claim says the cpu-trend increment ranges over
`[-2,2]` (as `uniform(-1,1)*2`) and the memory-trend increment over
`[-1.5,1.5]` (as `uniform(-0.75,0.75)*2`).  In the code the increments are
`(Math.random()-0.5)*2 ∈ [-1,1)` and `(Math.random()-0.5)*1.5 ∈ [-0.75,0.75)`:
the values `3/2` and `9/8`, inside the claimed ranges, are not attained by any
valid draw. -/
theorem trend_increment_range_cex :
    (¬ ∃ q : ℚ, (0 ≤ q ∧ q < 1) ∧ cpuTrendIncrement q = 3/2) ∧
    (¬ ∃ q : ℚ, (0 ≤ q ∧ q < 1) ∧ memoryTrendIncrement q = 9/8) := by
  constructor
  · rintro ⟨q, ⟨h0, h1⟩, he⟩
    simp only [cpuTrendIncrement] at he
    linarith
  · rintro ⟨q, ⟨h0, h1⟩, he⟩
    simp only [memoryTrendIncrement] at he
    linarith

/-- C5 amended: on each `generateDataPoint` tick, before clamping, `cpuTrend`
is incremented by `(u - 0.5) * 2` (an increment ranging over `[-1,1)` as the
draw `u` ranges over `[0,1)`) and `memoryTrend` by `(u - 0.5) * 1.5` (ranging
over `[-0.75, 0.75)`); the results are then clamped to `[-15,15]` and
`[-10,10]` respectively. -/
theorem trend_increment_formula (s : GenState) (r : ℕ → ℚ) (k : ℕ) (ts : ℚ)
    (hr : ValidRand r) :
    (generateDataPoint s r k ts).2.1.cpuTrend =
      clampQ (-15) 15 (s.cpuTrend + cpuTrendIncrement (r k)) ∧
    (generateDataPoint s r k ts).2.1.memoryTrend =
      clampQ (-10) 10 (s.memoryTrend + memoryTrendIncrement (r (k+1))) ∧
    -1 ≤ cpuTrendIncrement (r k) ∧ cpuTrendIncrement (r k) < 1 ∧
    -(3/4) ≤ memoryTrendIncrement (r (k+1)) ∧ memoryTrendIncrement (r (k+1)) < 3/4 := by
  have h0 := hr k
  have h1 := hr (k+1)
  refine ⟨rfl, rfl, ?_, ?_, ?_, ?_⟩ <;>
    simp only [cpuTrendIncrement, memoryTrendIncrement] <;> linarith [h0.1, h0.2, h1.1, h1.2]

/-- Witness for C5 at the concrete valid stream of constant draws `1/2`. -/
theorem trend_increment_formula_witness :
    ValidRand halfStream ∧
    ((generateDataPoint initGenState halfStream 0 0).2.1.cpuTrend =
       clampQ (-15) 15 (initGenState.cpuTrend + cpuTrendIncrement (halfStream 0)) ∧
     (generateDataPoint initGenState halfStream 0 0).2.1.memoryTrend =
       clampQ (-10) 10 (initGenState.memoryTrend + memoryTrendIncrement (halfStream 1)) ∧
     -1 ≤ cpuTrendIncrement (halfStream 0) ∧ cpuTrendIncrement (halfStream 0) < 1 ∧
     -(3/4) ≤ memoryTrendIncrement (halfStream 1) ∧
       memoryTrendIncrement (halfStream 1) < 3/4) :=
  ⟨fun n => by constructor <;> norm_num [halfStream],
   trend_increment_formula initGenState halfStream 0 0
     (fun n => by constructor <;> norm_num [halfStream])⟩

/-! ## C6: generator state invariant over arbitrary runs -/

/-- C6: starting from the initial state, after every `generateDataPoint` call
of an arbitrarily long run, `cpuTrend ∈ [-15,15]`, `memoryTrend ∈ [-10,10]`,
and the spike cooldown is an integer in `[0,15]`. -/
theorem generator_state_invariant (r : ℕ → ℚ) (n : ℕ) :
    -15 ≤ (runGen r n).1.cpuTrend ∧ (runGen r n).1.cpuTrend ≤ 15 ∧
    -10 ≤ (runGen r n).1.memoryTrend ∧ (runGen r n).1.memoryTrend ≤ 10 ∧
    0 ≤ (runGen r n).1.errorSpikeCooldown ∧ (runGen r n).1.errorSpikeCooldown ≤ 15 := by
  induction n with
  | zero =>
    refine ⟨?_, ?_, ?_, ?_, ?_, ?_⟩ <;> norm_num [runGen, initGenState]
  | succ n ih =>
    have hstep : (runGen r (n+1)).1 =
        (generateDataPoint (runGen r n).1 r (runGen r n).2 0).2.1 := rfl
    rw [hstep, gdp_state_cpuTrend, gdp_state_memoryTrend, gdp_state_cooldown]
    have hcd := spikeStep_cooldown_mem r ((runGen r n).2 + 9)
      (runGen r n).1.errorSpikeCooldown
      (baseErrorRateOf (runGen r n).1 r (runGen r n).2) ih.2.2.2.2.1 ih.2.2.2.2.2
    exact ⟨le_clampQ _ _ _, clampQ_le _ _ _ (by norm_num),
      le_clampQ _ _ _, clampQ_le _ _ _ (by norm_num), hcd.1, hcd.2⟩

/-! ## C4: the spike/cooldown state machine -/

/-- C4: per-tick characterization of the spike state machine, keyed on the
cooldown value `cd1` obtained after the once-per-tick decrement.  If `cd1 = 0`
and the 0.02 idle roll succeeds, the tick's `errorRate` lies in `[2,5]` and the
cooldown becomes 15; if `cd1 = 0` and the roll fails, the base formula stands;
on ticks with `cd1 ≥ 5` the tick's `errorRate` is the rounded base formula and
no spike can trigger (the cooldown simply keeps the decremented value); on
ticks with `1 ≤ cd1 ≤ 4` the `errorRate` lies in `[0.5, 1.5]` and again no
spike can trigger.  Once the cooldown reaches 0 (`cd1 = 0`, which happens on
the very tick that decrements 1 to 0), the idle roll is eligible again. -/
theorem spike_machine_sequencing (s : GenState) (r : ℕ → ℚ) (k : ℕ) (ts : ℚ)
    (hr : ValidRand r) (cd1 : ℤ)
    (hcd1 : cd1 = if 0 < s.errorSpikeCooldown then s.errorSpikeCooldown - 1
                  else s.errorSpikeCooldown) :
    (cd1 = 0 → r (k+9) < 2/100 →
      2 ≤ (generateDataPoint s r k ts).1.errorRate ∧
      (generateDataPoint s r k ts).1.errorRate ≤ 5 ∧
      (generateDataPoint s r k ts).2.1.errorSpikeCooldown = 15) ∧
    (cd1 = 0 → ¬ r (k+9) < 2/100 →
      (generateDataPoint s r k ts).1.errorRate = round2 (baseErrorRateOf s r k) ∧
      (generateDataPoint s r k ts).2.1.errorSpikeCooldown = 0) ∧
    (5 ≤ cd1 →
      (generateDataPoint s r k ts).1.errorRate = round2 (baseErrorRateOf s r k) ∧
      (generateDataPoint s r k ts).2.1.errorSpikeCooldown = cd1) ∧
    (1 ≤ cd1 → cd1 ≤ 4 →
      1/2 ≤ (generateDataPoint s r k ts).1.errorRate ∧
      (generateDataPoint s r k ts).1.errorRate ≤ 3/2 ∧
      (generateDataPoint s r k ts).2.1.errorSpikeCooldown = cd1) := by
  refine ⟨?_, ?_, ?_, ?_⟩
  · intro h0 hroll
    have hs := spikeStep_eq_spike r (k+9) s.errorSpikeCooldown
      (baseErrorRateOf s r k) (hcd1 ▸ h0) hroll
    rw [gdp_errorRate, gdp_state_cooldown, hs]
    have h10 := hr (k+10)
    refine ⟨two_le_round2 (by dsimp only; nlinarith [h10.1]), ?_, rfl⟩
    exact round2_le_five (by dsimp only; nlinarith [h10.2, h10.1])
  · intro h0 hroll
    have hs := spikeStep_eq_noroll r (k+9) s.errorSpikeCooldown
      (baseErrorRateOf s r k) (hcd1 ▸ h0) hroll
    rw [gdp_errorRate, gdp_state_cooldown, hs]
    exact ⟨rfl, rfl⟩
  · intro h5
    have hs := spikeStep_eq_base r (k+9) s.errorSpikeCooldown
      (baseErrorRateOf s r k) cd1 hcd1 (by omega) (by omega)
    rw [gdp_errorRate, gdp_state_cooldown, hs]
    exact ⟨rfl, rfl⟩
  · intro h1 h4
    have hs := spikeStep_eq_plateau r (k+9) s.errorSpikeCooldown
      (baseErrorRateOf s r k) cd1 hcd1 (by omega) (by omega)
    rw [gdp_errorRate, gdp_state_cooldown, hs]
    have h9 := hr (k+9)
    refine ⟨half_le_round2 (by dsimp only; nlinarith [h9.1]), ?_, rfl⟩
    exact round2_le_three_halves (by dsimp only; nlinarith [h9.2])

/-- Witness for C4 at a concrete state with cooldown 6 (so `cd1 = 5`) and the
constant valid stream of draws `1/2`. -/
theorem spike_machine_sequencing_witness :
    (ValidRand halfStream ∧ (5 : ℤ) = if 0 < (GenState.mk 0 0 6).errorSpikeCooldown
        then (GenState.mk 0 0 6).errorSpikeCooldown - 1
        else (GenState.mk 0 0 6).errorSpikeCooldown) ∧
    (((5 : ℤ) = 0 → halfStream 9 < 2/100 →
      2 ≤ (generateDataPoint (GenState.mk 0 0 6) halfStream 0 0).1.errorRate ∧
      (generateDataPoint (GenState.mk 0 0 6) halfStream 0 0).1.errorRate ≤ 5 ∧
      (generateDataPoint (GenState.mk 0 0 6) halfStream 0 0).2.1.errorSpikeCooldown = 15) ∧
    ((5 : ℤ) = 0 → ¬ halfStream 9 < 2/100 →
      (generateDataPoint (GenState.mk 0 0 6) halfStream 0 0).1.errorRate =
        round2 (baseErrorRateOf (GenState.mk 0 0 6) halfStream 0) ∧
      (generateDataPoint (GenState.mk 0 0 6) halfStream 0 0).2.1.errorSpikeCooldown = 0) ∧
    ((5 : ℤ) ≤ 5 →
      (generateDataPoint (GenState.mk 0 0 6) halfStream 0 0).1.errorRate =
        round2 (baseErrorRateOf (GenState.mk 0 0 6) halfStream 0) ∧
      (generateDataPoint (GenState.mk 0 0 6) halfStream 0 0).2.1.errorSpikeCooldown = 5) ∧
    ((1 : ℤ) ≤ 5 → (5 : ℤ) ≤ 4 →
      1/2 ≤ (generateDataPoint (GenState.mk 0 0 6) halfStream 0 0).1.errorRate ∧
      (generateDataPoint (GenState.mk 0 0 6) halfStream 0 0).1.errorRate ≤ 3/2 ∧
      (generateDataPoint (GenState.mk 0 0 6) halfStream 0 0).2.1.errorSpikeCooldown = 5)) :=
  ⟨⟨fun n => by constructor <;> norm_num [halfStream], by norm_num⟩,
   spike_machine_sequencing (GenState.mk 0 0 6) halfStream 0 0
     (fun n => by constructor <;> norm_num [halfStream]) 5 (by norm_num)⟩

/-! ## C3: backfill sample count and timestamp monotonicity -/

lemma genHistLoop_length (r : ℕ → ℚ) (now Δ : ℚ) (p : ℤ) :
    ∀ (fuel i : ℕ) (s : GenState) (k : ℕ),
      ((genHistLoop r now Δ p fuel i s k).1).length = fuel := by
  intro fuel
  induction fuel with
  | zero => intro i s k; rfl
  | succ f ih =>
    intro i s k
    simp only [genHistLoop, List.length_cons, ih]

lemma genHistLoop_ts_lb (r : ℕ → ℚ) (now Δ : ℚ) (p : ℤ) (hΔ : 0 < Δ) :
    ∀ (fuel i : ℕ) (s : GenState) (k : ℕ),
      ∀ pt ∈ (genHistLoop r now Δ p fuel i s k).1,
        now - ((p : ℚ) - (i : ℚ)) * Δ ≤ pt.timestamp := by
  intro fuel
  induction fuel with
  | zero => intro i s k pt hpt; simp [genHistLoop] at hpt
  | succ f ih =>
    intro i s k pt hpt
    simp only [genHistLoop, List.mem_cons] at hpt
    rcases hpt with h | h
    · rw [h, gdp_timestamp]
    · have := ih (i+1) _ _ pt h
      push_cast at this ⊢
      linarith

lemma genHistLoop_pairwise (r : ℕ → ℚ) (now Δ : ℚ) (p : ℤ) (hΔ : 0 < Δ) :
    ∀ (fuel i : ℕ) (s : GenState) (k : ℕ),
      List.Pairwise (fun a b : MetricDataPoint => a.timestamp < b.timestamp)
        (genHistLoop r now Δ p fuel i s k).1 := by
  intro fuel
  induction fuel with
  | zero => intro i s k; simp [genHistLoop]
  | succ f ih =>
    intro i s k
    simp only [genHistLoop, List.pairwise_cons]
    constructor
    · intro b hb
      have hlb := genHistLoop_ts_lb r now Δ p hΔ f (i+1) _ _ b hb
      rw [gdp_timestamp]
      push_cast at hlb ⊢
      linarith
    · exact ih (i+1) _ _

/-- C3: for every `intervalMs > 0`, `generateHistoricalData` returns exactly
`floor(minutes*60000/intervalMs)` samples when `minutes ≥ 0`, returns the
empty sequence for zero or negative `minutes`, and the timestamps of the
returned samples are strictly increasing. -/
theorem backfill_count_and_monotone (s : GenState) (r : ℕ → ℚ) (k : ℕ)
    (now minutes Δ : ℚ) (hΔ : 0 < Δ) :
    (0 ≤ minutes →
      (((generateHistoricalData s r k now minutes Δ).1.length : ℤ) =
        ⌊minutes * 60 * 1000 / Δ⌋)) ∧
    (minutes ≤ 0 → (generateHistoricalData s r k now minutes Δ).1 = []) ∧
    List.Pairwise (fun a b : MetricDataPoint => a.timestamp < b.timestamp)
      (generateHistoricalData s r k now minutes Δ).1 := by
  have hunfold : (generateHistoricalData s r k now minutes Δ).1 =
      (genHistLoop r now Δ ⌊minutes * 60 * 1000 / Δ⌋
        (⌊minutes * 60 * 1000 / Δ⌋).toNat 0 s k).1 := rfl
  refine ⟨?_, ?_, ?_⟩
  · intro hm
    rw [hunfold, genHistLoop_length]
    have harg : (0 : ℚ) ≤ minutes * 60 * 1000 / Δ := by positivity
    have hfl : 0 ≤ ⌊minutes * 60 * 1000 / Δ⌋ := Int.le_floor.mpr (by exact_mod_cast harg)
    omega
  · intro hm
    have h1 : minutes * 60 * 1000 ≤ 0 := by linarith
    have harg : minutes * 60 * 1000 / Δ ≤ 0 := by
      have := (div_le_div_iff_of_pos_right hΔ).mpr h1
      simpa using this
    have hfl : ⌊minutes * 60 * 1000 / Δ⌋ ≤ 0 := by
      have hle : (⌊minutes * 60 * 1000 / Δ⌋ : ℚ) ≤ 0 := le_trans (Int.floor_le _) harg
      exact_mod_cast hle
    have htn : (⌊minutes * 60 * 1000 / Δ⌋).toNat = 0 := by omega
    rw [hunfold, htn]
    rfl
  · rw [hunfold]
    exact genHistLoop_pairwise r now Δ _ hΔ _ 0 s k

/-- Witness for C3 at `minutes = 1`, `intervalMs = 2000`. -/
theorem backfill_count_and_monotone_witness :
    (0 : ℚ) < 2000 ∧
    ((0 ≤ (1 : ℚ) →
      (((generateHistoricalData initGenState halfStream 0 0 1 2000).1.length : ℤ) =
        ⌊(1 : ℚ) * 60 * 1000 / 2000⌋)) ∧
    ((1 : ℚ) ≤ 0 → (generateHistoricalData initGenState halfStream 0 0 1 2000).1 = []) ∧
    List.Pairwise (fun a b : MetricDataPoint => a.timestamp < b.timestamp)
      (generateHistoricalData initGenState halfStream 0 0 1 2000).1) :=
  ⟨by norm_num,
   backfill_count_and_monotone initGenState halfStream 0 0 1 2000 (by norm_num)⟩

/-! ## C8: tick is a pure functional update preserving ids and regions -/

/-- C8: `updateNodeMetrics` (the embedding is a pure function of the input
population and the draw stream, so it cannot mutate its argument) returns a
population of the same length whose node at each index keeps the `nodeId` and
`region` of the input node at the same index, for every input population and
every draw stream. -/
theorem tick_preserves_identity (r : ℕ → ℚ) (k : ℕ) (pop : List NodeMetric) :
    (updateNodeMetrics r k pop).1.length = pop.length ∧
    (updateNodeMetrics r k pop).1.map NodeMetric.nodeId = pop.map NodeMetric.nodeId ∧
    (updateNodeMetrics r k pop).1.map NodeMetric.region = pop.map NodeMetric.region := by
  induction pop generalizing k with
  | nil => exact ⟨rfl, rfl, rfl⟩
  | cons a rest ih =>
    have h := ih (updateNode a r k).2
    refine ⟨?_, ?_, ?_⟩
    · simp only [updateNodeMetrics, List.length_cons, h.1]
    · simp only [updateNodeMetrics, List.map_cons, h.2.1]
      rfl
    · simp only [updateNodeMetrics, List.map_cons, h.2.2]
      rfl

/-! ## C2: stored status versus stored health (corrected) -/

/-- C2 counterexample: a degraded node with integer health 79, a delta draw of
0.7 (delta `+0.6`, valid draw) and a failed decline coin yields unrounded new
health `79.6`.  The code stores `health = Math.round(79.6) = 80` but computes
`status` from the unrounded value, storing `degraded` — while the documented
threshold classification of the stored health 80 is `healthy`.  So the stored
status can diverge from the classification of the stored health. -/
theorem tick_status_divergence_cex :
    (updateNode ⟨"node-01", 50, 79, .degraded, "us-east"⟩
        (fun n => if n = 0 then 7/10 else 1/2) 0).1.health = 80 ∧
    (updateNode ⟨"node-01", 50, 79, .degraded, "us-east"⟩
        (fun n => if n = 0 then 7/10 else 1/2) 0).1.status = NodeHealthStatus.degraded ∧
    determineStatus 80 = NodeHealthStatus.healthy ∧
    (updateNode ⟨"node-01", 50, 79, .degraded, "us-east"⟩
        (fun n => if n = 0 then 7/10 else 1/2) 0).1.status ≠
      determineStatus ((updateNode ⟨"node-01", 50, 79, .degraded, "us-east"⟩
        (fun n => if n = 0 then 7/10 else 1/2) 0).1.health) := by
  have hds : healthDeltaStep ⟨"node-01", 50, 79, .degraded, "us-east"⟩
      (fun n => if n = 0 then 7/10 else 1/2) 0 = (3/5, 2) := by
    norm_num [healthDeltaStep]
  have hraw : rawNewHealth ⟨"node-01", 50, 79, .degraded, "us-east"⟩
      (fun n => if n = 0 then 7/10 else 1/2) 0 = 398/5 := by
    simp only [rawNewHealth, hds, clampQ]
    norm_num
  have hjr : jsRound (398/5 : ℚ) = 80 := by
    unfold jsRound
    rw [show (398/5 : ℚ) + 1/2 = 801/10 by norm_num, Int.floor_eq_iff]
    norm_num
  have hhealth : (updateNode ⟨"node-01", 50, 79, .degraded, "us-east"⟩
      (fun n => if n = 0 then 7/10 else 1/2) 0).1.health =
      (jsRound (rawNewHealth ⟨"node-01", 50, 79, .degraded, "us-east"⟩
        (fun n => if n = 0 then 7/10 else 1/2) 0) : ℚ) := rfl
  have hstatus : (updateNode ⟨"node-01", 50, 79, .degraded, "us-east"⟩
      (fun n => if n = 0 then 7/10 else 1/2) 0).1.status =
      determineStatus (rawNewHealth ⟨"node-01", 50, 79, .degraded, "us-east"⟩
        (fun n => if n = 0 then 7/10 else 1/2) 0) := rfl
  have h80 : (updateNode ⟨"node-01", 50, 79, .degraded, "us-east"⟩
      (fun n => if n = 0 then 7/10 else 1/2) 0).1.health = 80 := by
    rw [hhealth, hraw, hjr]
    norm_num
  have hdeg : (updateNode ⟨"node-01", 50, 79, .degraded, "us-east"⟩
      (fun n => if n = 0 then 7/10 else 1/2) 0).1.status = NodeHealthStatus.degraded := by
    rw [hstatus, hraw]
    norm_num [determineStatus]
  have hcls : determineStatus 80 = NodeHealthStatus.healthy := by
    norm_num [determineStatus]
  refine ⟨h80, hdeg, hcls, ?_⟩
  rw [h80, hdeg, hcls]
  intro h
  exact NodeHealthStatus.noConfusion h

/-- C2 amended: after every `updateNodeMetrics` tick, each returned node's
stored `status` equals the documented threshold classification of the
*unrounded* clamped health (`newHealth` before `Math.round`), and the stored
`health` is that unrounded value rounded to the nearest integer.  (Because
status is derived from the unrounded value while the rounded value is stored,
the stored status can disagree with the classification of the stored health
when the unrounded health lies within half a unit below a threshold.) -/
theorem tick_status_from_unrounded_health (r : ℕ → ℚ) (k : ℕ)
    (pop : List NodeMetric) :
    List.Forall₂ (fun a b => ∃ k', b = (updateNode a r k').1 ∧
      b.status = determineStatus (rawNewHealth a r k') ∧
      b.health = (jsRound (rawNewHealth a r k') : ℚ)) pop (updateNodeMetrics r k pop).1 := by
  induction pop generalizing k with
  | nil => exact List.Forall₂.nil
  | cons a rest ih =>
    exact List.Forall₂.cons ⟨k, rfl, rfl, rfl⟩ (ih _)

/-! ## C9: the recovery boost for down nodes -/

/-- C9: for a node whose stored status is `down` with integer health in
`[0,100]`, on a tick where the 0.3-probability recovery roll succeeds the
applied `healthDelta` is the non-negative `|base delta| * 2`, and the node's
resulting stored (clamped, rounded) health is at least its previous health. -/
theorem recovery_boost (node : NodeMetric) (r : ℕ → ℚ) (k : ℕ)
    (hdown : node.status = .down)
    (hint : ∃ m : ℤ, node.health = (m : ℚ))
    (_h0 : 0 ≤ node.health) (h100 : node.health ≤ 100)
    (hroll : r (k+1) < 3/10) :
    (healthDeltaStep node r k).1 = |(r k - 1/2) * 3| * 2 ∧
    0 ≤ (healthDeltaStep node r k).1 ∧
    node.health ≤ (updateNode node r k).1.health := by
  have hds : (healthDeltaStep node r k).1 = |(r k - 1/2) * 3| * 2 := by
    simp [healthDeltaStep, hdown, hroll]
  have hd : 0 ≤ (healthDeltaStep node r k).1 := by
    rw [hds]; positivity
  refine ⟨hds, hd, ?_⟩
  obtain ⟨m, hm⟩ := hint
  have hraw : node.health ≤ rawNewHealth node r k := by
    unfold rawNewHealth clampQ
    have h1 : node.health ≤ min 100 (node.health + (healthDeltaStep node r k).1) :=
      le_min h100 (by linarith)
    exact le_trans h1 (le_max_right _ _)
  have hfield : (updateNode node r k).1.health = (jsRound (rawNewHealth node r k) : ℚ) := rfl
  have hz : m ≤ jsRound (rawNewHealth node r k) :=
    le_jsRound m _ (by rw [← hm]; exact hraw)
  rw [hfield, hm]
  exact_mod_cast hz

/-- Witness for C9: a down node with health 35 and a draw stream whose
recovery coin succeeds (all draws 0). -/
theorem recovery_boost_witness :
    ((NodeMetric.mk "node-01" 50 35 .down "us-east").status = .down ∧
     (∃ m : ℤ, (NodeMetric.mk "node-01" 50 35 .down "us-east").health = (m : ℚ)) ∧
     0 ≤ (NodeMetric.mk "node-01" 50 35 .down "us-east").health ∧
     (NodeMetric.mk "node-01" 50 35 .down "us-east").health ≤ 100 ∧
     (fun _ : ℕ => (0 : ℚ)) 1 < 3/10) ∧
    ((healthDeltaStep (NodeMetric.mk "node-01" 50 35 .down "us-east")
        (fun _ : ℕ => (0 : ℚ)) 0).1 = |((fun _ : ℕ => (0 : ℚ)) 0 - 1/2) * 3| * 2 ∧
     0 ≤ (healthDeltaStep (NodeMetric.mk "node-01" 50 35 .down "us-east")
        (fun _ : ℕ => (0 : ℚ)) 0).1 ∧
     (NodeMetric.mk "node-01" 50 35 .down "us-east").health ≤
       (updateNode (NodeMetric.mk "node-01" 50 35 .down "us-east")
          (fun _ : ℕ => (0 : ℚ)) 0).1.health) :=
  ⟨⟨rfl, ⟨35, by norm_num⟩, by norm_num, by norm_num, by norm_num⟩,
   recovery_boost (NodeMetric.mk "node-01" 50 35 .down "us-east")
     (fun _ : ℕ => (0 : ℚ)) 0 rfl ⟨35, by norm_num⟩ (by norm_num) (by norm_num)
     (by norm_num)⟩

/-! ## C7: shape and consistency of the initial population -/

lemma makeNode_status (i : ℕ) (r : ℕ → ℚ) (k : ℕ) (hr : ValidRand r) :
    (makeNode i r k).1.status = determineStatus ((makeNode i r k).1.health) := by
  have h2 := hr (k+2)
  have h3 := hr (k+3)
  simp only [makeNode]
  split_ifs with ht1 ht2 <;> dsimp only
  · -- healthy tier: health raw in [85, 100)
    have hl : (80 : ℚ) ≤ 85 + r (k+2) * 15 := by nlinarith [h2.1]
    have hz : (85 : ℤ) ≤ jsRound (85 + r (k+2) * 15) :=
      le_jsRound 85 _ (by push_cast; nlinarith [h2.1])
    have hc : (80 : ℚ) ≤ (jsRound (85 + r (k+2) * 15) : ℚ) := by
      have : ((85 : ℤ) : ℚ) ≤ (jsRound (85 + r (k+2) * 15) : ℚ) := by exact_mod_cast hz
      push_cast at this
      linarith
    rw [determineStatus, determineStatus, if_pos hl, if_pos hc]
  · -- degraded tier: health raw in [50, 75)
    have hlt : 50 + r (k+3) * 25 < 80 := by nlinarith [h3.2]
    have hge : (40 : ℚ) ≤ 50 + r (k+3) * 25 := by nlinarith [h3.1]
    have hzu : jsRound (50 + r (k+3) * 25) ≤ 75 :=
      jsRound_le 75 _ (by push_cast; nlinarith [h3.2])
    have hzl : (50 : ℤ) ≤ jsRound (50 + r (k+3) * 25) :=
      le_jsRound 50 _ (by push_cast; nlinarith [h3.1])
    have hcu : (jsRound (50 + r (k+3) * 25) : ℚ) < 80 := by
      have : (jsRound (50 + r (k+3) * 25) : ℚ) ≤ ((75 : ℤ) : ℚ) := by exact_mod_cast hzu
      push_cast at this
      linarith
    have hcl : (40 : ℚ) ≤ (jsRound (50 + r (k+3) * 25) : ℚ) := by
      have : ((50 : ℤ) : ℚ) ≤ (jsRound (50 + r (k+3) * 25) : ℚ) := by exact_mod_cast hzl
      push_cast at this
      linarith
    rw [determineStatus, determineStatus, if_neg (by linarith), if_pos hge,
      if_neg (by linarith), if_pos hcl]
  · -- down tier: health raw in [15, 35)
    have hlt : 15 + r (k+3) * 20 < 40 := by nlinarith [h3.2]
    have hzu : jsRound (15 + r (k+3) * 20) ≤ 35 :=
      jsRound_le 35 _ (by push_cast; nlinarith [h3.2])
    have hcu : (jsRound (15 + r (k+3) * 20) : ℚ) < 40 := by
      have : (jsRound (15 + r (k+3) * 20) : ℚ) ≤ ((35 : ℤ) : ℚ) := by exact_mod_cast hzu
      push_cast at this
      linarith
    rw [determineStatus, determineStatus, if_neg (by linarith), if_neg (by linarith),
      if_neg (by linarith), if_neg (by linarith)]

lemma generateNodeMetricsAux_status (r : ℕ → ℚ) (hr : ValidRand r) :
    ∀ (n i k : ℕ), ∀ node ∈ (generateNodeMetricsAux r n i k).1,
      node.status = determineStatus node.health := by
  intro n
  induction n with
  | zero => intro i k node h; simp [generateNodeMetricsAux] at h
  | succ m ih =>
    intro i k node h
    simp only [generateNodeMetricsAux, List.mem_cons] at h
    rcases h with h | h
    · rw [h]
      exact makeNode_status i r k hr
    · exact ih _ _ node h

/-- C7: `generateNodeMetrics` (the default configuration: 24 nodes, 4 regions)
returns exactly 24 nodes, whose ids are `node-01` .. `node-24` in order, whose
region at index `i` is `REGIONS[i mod 4]` (shown by the explicit round-robin
list), and whose stored `status` agrees with the documented threshold
classification of the stored `health` for every node and every valid draw
stream. -/
theorem createPopulation_shape (r : ℕ → ℚ) (k : ℕ) (hr : ValidRand r) :
    (generateNodeMetrics r k).1.length = 24 ∧
    (generateNodeMetrics r k).1.map NodeMetric.nodeId =
      ["node-01", "node-02", "node-03", "node-04", "node-05", "node-06",
       "node-07", "node-08", "node-09", "node-10", "node-11", "node-12",
       "node-13", "node-14", "node-15", "node-16", "node-17", "node-18",
       "node-19", "node-20", "node-21", "node-22", "node-23", "node-24"] ∧
    (generateNodeMetrics r k).1.map NodeMetric.region =
      ["us-east", "us-west", "eu-central", "ap-south",
       "us-east", "us-west", "eu-central", "ap-south",
       "us-east", "us-west", "eu-central", "ap-south",
       "us-east", "us-west", "eu-central", "ap-south",
       "us-east", "us-west", "eu-central", "ap-south",
       "us-east", "us-west", "eu-central", "ap-south"] ∧
    ∀ node ∈ (generateNodeMetrics r k).1, node.status = determineStatus node.health :=
  ⟨rfl, rfl, rfl, generateNodeMetricsAux_status r hr NODE_COUNT 0 k⟩

/-- Witness for C7 at the concrete valid stream of constant draws `1/2`. -/
theorem createPopulation_shape_witness :
    ValidRand halfStream ∧
    ((generateNodeMetrics halfStream 0).1.length = 24 ∧
     (generateNodeMetrics halfStream 0).1.map NodeMetric.nodeId =
       ["node-01", "node-02", "node-03", "node-04", "node-05", "node-06",
        "node-07", "node-08", "node-09", "node-10", "node-11", "node-12",
        "node-13", "node-14", "node-15", "node-16", "node-17", "node-18",
        "node-19", "node-20", "node-21", "node-22", "node-23", "node-24"] ∧
     (generateNodeMetrics halfStream 0).1.map NodeMetric.region =
       ["us-east", "us-west", "eu-central", "ap-south",
        "us-east", "us-west", "eu-central", "ap-south",
        "us-east", "us-west", "eu-central", "ap-south",
        "us-east", "us-west", "eu-central", "ap-south",
        "us-east", "us-west", "eu-central", "ap-south",
        "us-east", "us-west", "eu-central", "ap-south"] ∧
     ∀ node ∈ (generateNodeMetrics halfStream 0).1,
       node.status = determineStatus node.health) :=
  ⟨fun n => by constructor <;> norm_num [halfStream],
   createPopulation_shape halfStream 0
     (fun n => by constructor <;> norm_num [halfStream])⟩
